import Mathlib

/-!
Verification development for the sitemap-detector background pipeline
(`background.js`): URL canonicalization, the two-tier sitemap parser, the
fetch/cache layer, the membership matcher, the per-tab non-indexed URL
tracker, and the export feature.  Host-platform capabilities (the WHATWG
`URL` class, `DOMParser`, the network, the clock, `scripting.executeScript`)
are modelled as explicit parameters or small executable models; everything
that is the repository's own logic is translated statement by statement.
-/

/-! ## Character/substring utilities used by the URL and regex models

String operations are implemented over `String.data` (lists of characters)
so that every definition evaluates by kernel reduction. -/

/-- Lowercase every character (the list-level `String.toLowerCase`). -/
def lowerStr (s : String) : String :=
  String.mk (s.data.map Char.toLower)

/-- The whitespace class trimmed by `String.prototype.trim` (restricted to
the ASCII whitespace characters; exotic Unicode spaces are not modelled). -/
def isJsSpace (c : Char) : Bool :=
  c == ' ' || c == '\t' || c == '\n' || c == '\r'

/-- `.trim()`: drop leading and trailing whitespace. -/
def trimStr (s : String) : String :=
  String.mk (((s.data.dropWhile isJsSpace).reverse.dropWhile isJsSpace).reverse)

/-- Case-insensitive (when `ci` is true) character comparison, modelling the
regex `/i` flag via `toLower`. -/
def charEqCI (ci : Bool) (a b : Char) : Bool :=
  if ci then a.toLower == b.toLower else a == b

/-- Is `pat` a (possibly case-insensitive) initial segment of `l`? -/
def isPrefixAtCI (ci : Bool) : List Char → List Char → Bool
  | [], _ => true
  | _ :: _, [] => false
  | p :: ps, c :: cs => charEqCI ci p c && isPrefixAtCI ci ps cs

/-- Index of the first occurrence of `pat` inside `l`, or `none`. -/
def findPos (ci : Bool) (pat : List Char) : List Char → Option Nat
  | [] => none
  | c :: cs =>
    if isPrefixAtCI ci pat (c :: cs) then some 0
    else (findPos ci pat cs).map (· + 1)

/-! ## URL model

The browser's `new URL(...)` (a host capability) is modelled for absolute
URLs of the shape `scheme://host[/path][?query][#fragment]`.  Scheme and
host are lowercased as the WHATWG parser does; the default pathname is
`/`.  Inputs outside this fragment (no `://`, empty host, invalid scheme
characters) are treated as parse failures, matching the `URL` constructor
throwing on them.  Not modelled: default-port elision, userinfo stripping,
path normalization and percent-encoding, and non-special schemes. -/

structure URLParts where
  scheme : String
  host : String
  pathname : String
deriving Repr, DecidableEq

/-- Is `s` a syntactically valid scheme (letter, then letters/digits/`+`/`-`/`.`)? -/
def validScheme (s : List Char) : Bool :=
  match s with
  | [] => false
  | c :: rest => c.isAlpha && rest.all (fun d => d.isAlphanum || d == '+' || d == '-' || d == '.')

/-- Model of `new URL(s)` restricted to `scheme://host[/path][?q][#f]`. -/
def parseURL (s : String) : Option URLParts :=
  match findPos false ("://".data) s.data with
  | none => none
  | some i =>
    let schemeChars := s.data.take i
    let rest := s.data.drop (i + 3)
    let hostChars := rest.takeWhile (fun c => !(c == '/' || c == '?' || c == '#'))
    let tail := rest.drop hostChars.length
    let pathChars := tail.takeWhile (fun c => !(c == '?' || c == '#'))
    if validScheme schemeChars && !hostChars.isEmpty then
      some { scheme := lowerStr (String.mk schemeChars)
             host := lowerStr (String.mk hostChars)
             pathname := if pathChars.isEmpty then "/" else String.mk pathChars }
    else none

/-- The raw-string fallback `url.split("?")[0].split("#")[0]`. -/
def splitQueryFragment (url : String) : String :=
  String.mk ((url.data.takeWhile (fun c => c != '?')).takeWhile (fun c => c != '#'))

/-- `removeUrlParameters` (background.js lines 483-491): `origin + pathname`
when the URL parses, else the split fallback; never throws. -/
def removeUrlParameters (url : String) : String :=
  match parseURL url with
  | some u => u.scheme ++ "://" ++ u.host ++ u.pathname
  | none => splitQueryFragment url

/-- `.replace(/\/$/, "")`: strip exactly one trailing slash if present. -/
def stripTrailingSlash (s : String) : String :=
  if s.data.getLast? = some '/' then String.mk s.data.dropLast else s

/-- The canonical form the Membership Matcher compares with
(`isUrlInSitemap`, lines 300 and 303): parameters/fragment removed, then
one trailing slash removed. -/
def matcherCanon (u : String) : String :=
  stripTrailingSlash (removeUrlParameters u)

/-- Modelled from the spec (section 4.1, for the refinement claim): the
spec's `canonicalize`, which keeps the slash when the path is exactly `/`
(the root URL keeps its slash). -/
def canonicalizeSpecClaim (u : String) : String :=
  match parseURL u with
  | some p =>
    let core := p.scheme ++ "://" ++ p.host ++ p.pathname
    if p.pathname = "/" then core else stripTrailingSlash core
  | none => stripTrailingSlash (splitQueryFragment u)

/-- Modelled from the spec, amended: the spec's `canonicalize` with the
trailing slash stripped unconditionally (also from the root URL). -/
def canonicalizeAmended (u : String) : String :=
  match parseURL u with
  | some p => stripTrailingSlash (p.scheme ++ "://" ++ p.host ++ p.pathname)
  | none => stripTrailingSlash (splitQueryFragment u)

/-! ## Sitemap entries and the two-tier parser (`parseSitemapFromText`) -/

/-- A parsed sitemap entry: `{ loc, lastmod }` (lines 190/220). An absent
`<lastmod>` is stored as the empty string. -/
structure SitemapEntry where
  loc : String
  lastmod : String
deriving Repr, DecidableEq

/-- An XML element/text tree, the model of the documents produced by the
host `DOMParser` capability.  Namespace prefixes are not modelled: `name`
plays the role of both `localName` and `nodeName`. -/
inductive XmlNode where
  | element (name : String) (children : List XmlNode) : XmlNode
  | text (content : String) : XmlNode
deriving Repr

mutual

/-- `node.textContent`: concatenation of all descendant text. -/
def textContent : XmlNode → String
  | XmlNode.text s => s
  | XmlNode.element _ cs => textContentList cs

def textContentList : List XmlNode → String
  | [] => ""
  | c :: cs => textContent c ++ textContentList cs

end

mutual

/-- `document.getElementsByTagName("*")`: every element in document
(pre-)order, the root included. -/
def allElements : XmlNode → List XmlNode
  | XmlNode.text _ => []
  | XmlNode.element n cs => XmlNode.element n cs :: allElementsList cs

def allElementsList : List XmlNode → List XmlNode
  | [] => []
  | c :: cs => allElements c ++ allElementsList cs

end

/-- `localName` of a node (empty for text nodes). -/
def nodeLocalName : XmlNode → String
  | XmlNode.element n _ => n
  | XmlNode.text _ => ""

/-- Direct children of a node. -/
def nodeChildren : XmlNode → List XmlNode
  | XmlNode.element _ cs => cs
  | XmlNode.text _ => []

/-- The child scan of lines 182-189: iterate over the direct children,
skipping non-element nodes; a `loc`/`lastmod` element overwrites the
accumulator (so the last such child wins), taking trimmed text content. -/
def scanLocLastmod : List XmlNode → String × String → String × String
  | [], acc => acc
  | XmlNode.text _ :: rest, acc => scanLocLastmod rest acc
  | XmlNode.element n cs :: rest, acc =>
    if n = "loc" then scanLocLastmod rest (trimStr (textContent (XmlNode.element n cs)), acc.2)
    else if n = "lastmod" then scanLocLastmod rest (acc.1, trimStr (textContent (XmlNode.element n cs)))
    else scanLocLastmod rest acc

/-- Lines 172-191: collect `<url>` elements by local name anywhere in the
document and keep those whose `loc` is non-empty. -/
def extractUrls (doc : XmlNode) : List SitemapEntry :=
  (allElements doc).filterMap (fun n =>
    if nodeLocalName n = "url" then
      let lm := scanLocLastmod (nodeChildren n) ("", "")
      if lm.1 = "" then none else some { loc := lm.1, lastmod := lm.2 }
    else none)

/-- Lines 165-169: the document counts as a parser error when the root is
named `parsererror` (case-insensitively) or any element is named
`parsererror`. -/
def isParserError (docRoot : XmlNode) : Bool :=
  lowerStr (nodeLocalName docRoot) == "parsererror" ||
    (allElements docRoot).any (fun n => nodeLocalName n == "parsererror")

/-- The structured tier (lines 160-204): the entries the DOM path yields.
`domParse` is the host `DOMParser` capability; `none` models an absent
`DOMParser`, a thrown exception, or a document without a root. A parser
error or zero entries both yield `[]`, which falls through to the
tolerant tier. -/
def domTierUrls (domParse : String → Option XmlNode) (text : String) : List SitemapEntry :=
  match domParse text with
  | none => []
  | some doc => if isParserError doc then [] else extractUrls doc

/-! ### The tolerant regex tier (lines 210-232) -/

/-- Model of the non-greedy capture `(.*?)` followed by `closeT`: scan for
the earliest occurrence of `closeT`, failing if a line terminator is hit
first (the regex dot does not match `\n` or `\r`; the rare ` ` and
` ` terminators are not modelled). -/
def captureTo (ci : Bool) (closeT : List Char) : List Char → Option (List Char)
  | [] => none
  | c :: cs =>
    if isPrefixAtCI ci closeT (c :: cs) then some []
    else if c == '\n' || c == '\r' then none
    else (captureTo ci closeT cs).map (c :: ·)

/-- Model of `/openT(.*?)closeT/` (first, leftmost match): try each start
position in order; at a position where `openT` matches, succeed with the
minimal capture if a close tag follows on the same line, else move on. -/
def findCapture (ci : Bool) (openT closeT : List Char) : List Char → Option (List Char)
  | [] => none
  | c :: cs =>
    if isPrefixAtCI ci openT (c :: cs) then
      match captureTo ci closeT ((c :: cs).drop openT.length) with
      | some cap => some cap
      | none => findCapture ci openT closeT cs
    else findCapture ci openT closeT cs

/-- One step of the global `/<url>([\s\S]*?)<\/url>/g` loop: the text
between the first `<url>` and the earliest `</url>` after it, plus the
remaining text after the close tag. -/
def extractBetween (openT closeT : List Char) (l : List Char) : Option (List Char × List Char) :=
  match findPos false openT l with
  | none => none
  | some i =>
    let afterOpen := l.drop (i + openT.length)
    match findPos false closeT afterOpen with
    | none => none
    | some j => some (afterOpen.take j, afterOpen.drop (j + closeT.length))

/-- All `<url>...</url>` blocks in order.  `fuel` bounds the recursion;
every successful step consumes at least the two tags (11 characters), so
starting from the text length the fuel never runs out before the matches
do. -/
def urlBlocksAux (openT closeT : List Char) : Nat → List Char → List (List Char)
  | 0, _ => []
  | Nat.succ fuel, l =>
    match extractBetween openT closeT l with
    | none => []
    | some (block, rest) => block :: urlBlocksAux openT closeT fuel rest

/-- The captured `<url>` blocks of the tolerant tier (case-sensitive, dot
matching newlines, exactly as `/<url>([\s\S]*?)<\/url>/g`). -/
def urlBlocks (text : String) : List (List Char) :=
  urlBlocksAux ("<url>".data) ("</url>".data) text.data.length text.data

/-- Lines 211-221: within each block take the first `<loc>`/`<lastmod>`
captures case-insensitively, trim them, and keep the entry when `loc` is
non-empty. -/
def regexTierEntries (text : String) : List SitemapEntry :=
  (urlBlocks text).filterMap (fun block =>
    let loc := trimStr (String.mk ((findCapture true ("<loc>".data) ("</loc>".data) block).getD []))
    let lastmod := trimStr (String.mk ((findCapture true ("<lastmod>".data) ("</lastmod>".data) block).getD []))
    if loc = "" then none else some { loc := loc, lastmod := lastmod })

/-- The result record of `parseSitemapFromText`/`parseSitemap`: success
carries `urls`, `count` and `lastModified` (lines 193-199, 227-232);
failure carries the error message. -/
inductive ParseResult where
  | success (urls : List SitemapEntry) (count : Nat) (lastModified : String) : ParseResult
  | failure (error : String) : ParseResult
deriving Repr, DecidableEq

/-- `success: true, urls, count: urls.length, lastModified: urls[0].lastmod
or ""` — the success record built at lines 194-199 and 227-232. -/
def mkSuccess (urls : List SitemapEntry) : ParseResult :=
  ParseResult.success urls urls.length
    (match urls with | [] => "" | u :: _ => u.lastmod)

/-- `ParseResult.success … ↦ true`. -/
def ParseResult.isSuccess : ParseResult → Bool
  | ParseResult.success _ _ _ => true
  | ParseResult.failure _ => false

/-- `parseSitemapFromText` (lines 154-236): structured tier first; if it
yields no entries (parser error included), the tolerant tier; if that also
yields none, the failure thrown at line 224 and caught at line 233. -/
def parseSitemapFromText (domParse : String → Option XmlNode) (text : String) : ParseResult :=
  let domUrls := domTierUrls domParse text
  if 0 < domUrls.length then mkSuccess domUrls
  else
    let urls := regexTierEntries text
    if urls.length = 0 then ParseResult.failure "No se encontraron URL válidas en el sitemap"
    else mkSuccess urls

/-! ## The Membership Matcher (`isUrlInSitemap`, lines 298-310) -/

/-- Compare the canonical form of `currentUrl` with the canonical form of
each entry location, returning the first hit of the loop, else `none`. -/
def isUrlInSitemap (currentUrl : String) (sitemapUrls : List SitemapEntry) : Option SitemapEntry :=
  let cleanCurrentUrl := stripTrailingSlash (removeUrlParameters currentUrl)
  sitemapUrls.find? (fun item => stripTrailingSlash (removeUrlParameters item.loc) == cleanCurrentUrl)

/-! ## The Sitemap Fetcher/Cache (`parseSitemap`, lines 107-145)

The network, the clock and the cache are explicit: `cache` is the
`sitemapCache` map, `now` is the `Date.now()` read at entry (line 110,
also the timestamp stored on success), and `net` is the outcome of the
`fetch` call.  The returned `FetchStep` records the result, the cache
after the call, whether the network was consulted, and whether the
response body was read. -/

/-- `MAX_SITEMAP_BYTES` (line 25): the 5 MB ceiling. -/
def MAX_SITEMAP_BYTES : Nat := 5 * 1024 * 1024

/-- `SITEMAP_CACHE_TTL_MS` (line 26): ten minutes. -/
def SITEMAP_CACHE_TTL_MS : Nat := 10 * 60 * 1000

/-- `MAX_SITEMAP_BYTES * 1.2` of line 133; the product is an integer
(6291456), so Nat arithmetic is exact. -/
def SIZE_READ_LIMIT : Nat := MAX_SITEMAP_BYTES * 6 / 5

/-- A `sitemapCache` record: `{ text, fetchedAt }` (line 27). -/
structure CacheRecord where
  text : String
  fetchedAt : Nat
deriving Repr, DecidableEq

/-- `Map.get`: the record stored under `k`, if any. -/
def cacheGet (cache : List (String × CacheRecord)) (k : String) : Option CacheRecord :=
  (cache.find? (fun p => p.1 == k)).map (fun p => p.2)

/-- `Map.set`: replace the record under `k`, or append a new binding. -/
def cacheSet (cache : List (String × CacheRecord)) (k : String) (v : CacheRecord) :
    List (String × CacheRecord) :=
  if cache.any (fun p => p.1 == k) then
    cache.map (fun p => if p.1 == k then (k, v) else p)
  else cache ++ [(k, v)]

/-- Outcome of the host `fetch` for this call: a thrown error (network
failure or the 15 s abort), or a response with its `ok` flag, status code,
optional `content-length` header and body text. -/
inductive NetOutcome where
  | thrown (msg : String) : NetOutcome
  | response (ok : Bool) (status : Nat) (contentLength : Option Nat) (body : String) : NetOutcome
deriving Repr, DecidableEq

/-- What one `parseSitemap` call did: its result, the cache afterwards,
whether it issued a network request, and whether it read the body. -/
structure FetchStep where
  result : ParseResult
  cache : List (String × CacheRecord)
  networkCalled : Bool
  bodyRead : Bool
deriving Repr, DecidableEq

/-- `contentLength && Number(contentLength) > MAX_SITEMAP_BYTES` (line 127). -/
def contentLengthExceeds (cl : Option Nat) : Bool :=
  match cl with
  | some n => decide (MAX_SITEMAP_BYTES < n)
  | none => false

/-- The try-block of lines 116-144 (entered when the cache misses): throw
and non-ok status become failures before the body is read; an oversized
`content-length` header fails before the body is read; an oversized body
fails after reading; otherwise the text is cached under `sitemapUrl` with
timestamp `now` and parsed.  All failure paths leave the cache unchanged. -/
def fetchNetworkStep (domParse : String → Option XmlNode)
    (cache : List (String × CacheRecord)) (now : Nat) (net : NetOutcome)
    (sitemapUrl : String) : FetchStep :=
  match net with
  | NetOutcome.thrown msg =>
    { result := ParseResult.failure msg, cache := cache, networkCalled := true, bodyRead := false }
  | NetOutcome.response ok status contentLength body =>
    if ok = false then
      { result := ParseResult.failure ("HTTP " ++ toString status), cache := cache,
        networkCalled := true, bodyRead := false }
    else if contentLengthExceeds contentLength then
      { result := ParseResult.failure "Sitemap demasiado grande (límite 5MB)", cache := cache,
        networkCalled := true, bodyRead := false }
    else if SIZE_READ_LIMIT < body.data.length then
      { result := ParseResult.failure "Sitemap excede el tamaño permitido", cache := cache,
        networkCalled := true, bodyRead := true }
    else
      { result := parseSitemapFromText domParse body,
        cache := cacheSet cache sitemapUrl { text := body, fetchedAt := now },
        networkCalled := true, bodyRead := true }

/-- `parseSitemap` (lines 107-145): cache-first — a record younger than the
TTL is parsed and returned with no network call; otherwise the network
path runs. -/
def parseSitemap (domParse : String → Option XmlNode)
    (cache : List (String × CacheRecord)) (now : Nat) (net : NetOutcome)
    (sitemapUrl : String) : FetchStep :=
  match cacheGet cache sitemapUrl with
  | some cached =>
    if now - cached.fetchedAt < SITEMAP_CACHE_TTL_MS then
      { result := parseSitemapFromText domParse cached.text, cache := cache,
        networkCalled := false, bodyRead := false }
    else fetchNetworkStep domParse cache now net sitemapUrl
  | none => fetchNetworkStep domParse cache now net sitemapUrl

/-! ## The Request Orchestrator (`processSitemapRequest`, lines 326-377) -/

/-- The value `pageFetchSitemap` hands back (lines 246-281): a record with
a success flag, the fetched text (empty when absent) and an error message
(empty when absent); `none` models a null/undefined injection result. -/
structure PageFetchResult where
  success : Bool
  text : String
  error : String
deriving Repr, DecidableEq

/-- The orchestrator's result record (lines 332-376). -/
inductive CheckResponse where
  | ok (currentUrl sitemapUrl : String) (urlFound : Bool)
      (urlDetails : Option SitemapEntry) (totalUrls : Nat) (lastModified : String) : CheckResponse
  | error (message : String) : CheckResponse
deriving Repr, DecidableEq

/-- JavaScript truthiness of the optional numeric `tabId` (line 343:
`tabId` is falsy when absent or zero). -/
def truthyTab : Option Nat → Bool
  | none => false
  | some n => decide (n ≠ 0)

/-- Lines 350-369: wrap a failed parse in the user-facing message, or run
the matcher and assemble the success record. -/
def finishRequest (tabUrl sitemapUrl : String) (sitemapData : ParseResult) : CheckResponse :=
  match sitemapData with
  | ParseResult.failure err => CheckResponse.error ("Error al leer el sitemap: " ++ err)
  | ParseResult.success urls cnt lm =>
    let m := isUrlInSitemap tabUrl urls
    CheckResponse.ok tabUrl sitemapUrl m.isSome m cnt lm

/-- `processSitemapRequest` (lines 326-377).  The awaited collaborator
calls are passed in as their results: `urlParse` is `new URL(tabUrl)`
(hostname or thrown message), `locate` is `getSitemapUrl(hostname)`,
`direct` is the direct `parseSitemap` result, and `pageFetch` is the
`pageFetchSitemap` result.  The fallback replaces `sitemapData` only when
it succeeded with non-empty text (line 345). -/
def processSitemapRequest (domParse : String → Option XmlNode)
    (urlParse : Except String String) (locate : Option String)
    (direct : ParseResult) (pageFetch : Option PageFetchResult)
    (tabUrl : String) (tabId : Option Nat) : CheckResponse :=
  match urlParse with
  | Except.error msg => CheckResponse.error msg
  | Except.ok _hostname =>
    match locate with
    | none => CheckResponse.error "No se encontró un sitemap en este sitio"
    | some sitemapUrl =>
      let sitemapData :=
        if direct.isSuccess = false ∧ truthyTab tabId = true then
          match pageFetch with
          | some r =>
            if r.success = true ∧ r.text ≠ "" then parseSitemapFromText domParse r.text
            else direct
          | none => direct
        else direct
      finishRequest tabUrl sitemapUrl sitemapData

/-! ## The Session State Tracker (lines 475-555, 606-637)

`nonIndexedByTab` is modelled as a total function from tab identifiers to
the tab's stored list (a JavaScript `Set` in insertion order); a missing
entry and an empty set are both the empty list, which is observationally
the behaviour of lines 506-510 and 535-537. -/

/-- `Set.add`: append if not already present. -/
def setAdd (s : List String) (x : String) : List String :=
  if x ∈ s then s else s ++ [x]

/-- `addNonIndexedUrl` (lines 500-518): guard on falsy `tabId`/`url`, strip
query parameters and fragments, add to the tab's set. -/
def addNonIndexedUrl (tabId : Nat) (url : String) (st : Nat → List String) :
    Nat → List String :=
  if tabId = 0 ∨ url = "" then st
  else
    let cleanUrl := removeUrlParameters url
    fun t => if t = tabId then setAdd (st tabId) cleanUrl else st t

/-- `removeNonIndexedUrl` (lines 527-544): guard on falsy `tabId`; delete
the cleaned URL when `url` is truthy (a `Set` holds no duplicates, so
`Set.delete` and `filter` agree). -/
def removeNonIndexedUrl (tabId : Nat) (url : String) (st : Nat → List String) :
    Nat → List String :=
  if tabId = 0 then st
  else fun t =>
    if t = tabId then
      if url = "" then st tabId
      else (st tabId).filter (fun x => x ≠ removeUrlParameters url)
    else st t

/-- The shape of a `processSitemapRequest` result as consumed by
`updateBadgeFromResult`: `urlFound` is `none` on the error-shaped records,
which carry no such field. -/
structure BgResult where
  status : String
  hasError : Bool
  urlFound : Option Bool
  currentUrl : String
deriving Repr, DecidableEq

/-- `updateBadgeFromResult` (lines 606-637) restricted to its effect on
`nonIndexedByTab` (badge drawing is a UI side effect): a successful
not-found check adds the current URL, a successful found check removes it,
anything else leaves the map untouched. -/
def updateBadgeFromResult (r : BgResult) (tabId : Nat) (st : Nat → List String) :
    Nat → List String :=
  if r.hasError = false ∧ r.status = "success" ∧ r.urlFound = some false then
    addNonIndexedUrl tabId r.currentUrl st
  else if r.hasError = false ∧ r.status = "success" ∧ r.urlFound = some true then
    removeNonIndexedUrl tabId r.currentUrl st
  else st

/-- Apply a sequence of check results (each with its tab) in order. -/
def applyEvents (evs : List (BgResult × Nat)) (st : Nat → List String) :
    Nat → List String :=
  evs.foldl (fun s e => updateBadgeFromResult e.1 e.2 s) st

/-- Is `e` a successful check applied to tab `t` (the two branches of
`updateBadgeFromResult` that touch the set)? -/
def isSuccessCheck (e : BgResult × Nat) (t : Nat) : Bool :=
  e.2 == t && e.1.hasError == false && e.1.status == "success" &&
    (e.1.urlFound == some true || e.1.urlFound == some false)

/-- The verdict (`urlFound`) of the most recent successful check applied
to tab `t` whose current URL has canonical form `c` under `canon`. -/
def lastVerdictAt (canon : String → String) (t : Nat) (c : String)
    (evs : List (BgResult × Nat)) : Option Bool :=
  match evs.reverse.find? (fun e => isSuccessCheck e t && canon e.1.currentUrl == c) with
  | some e => e.1.urlFound
  | none => none

/-! ## The export feature (`exportNonIndexedUrls`, lines 564-597) -/

/-- One `<url>` block of the export (lines 587-592): the stored URL is
interpolated verbatim into `<loc>`. -/
def exportEntryBlock (ts : String) (urlString : String) : String :=
  "    <url>\n      <loc>" ++ urlString ++ "</loc>\n      <lastmod>" ++ ts ++ "</lastmod>\n    </url>"

/-- `Array.prototype.join("\n")`. -/
def joinLines : List String → String
  | [] => ""
  | [s] => s
  | s :: rest => s ++ "\n" ++ joinLines rest

/-- `exportNonIndexedUrls` (lines 564-597) with the timestamp computation
(which reads the clock) abstracted into the `ts` parameter: empty string
for an empty set, else the joined `<url>` blocks in insertion order. -/
def exportNonIndexedUrls (st : Nat → List String) (tabId : Nat) (ts : String) : String :=
  let urls := st tabId
  if urls = [] then ""
  else joinLines (urls.map (exportEntryBlock ts))

/-! ## Shared helper lemmas -/

/-- String concatenation acts as list concatenation on the character data. -/
theorem str_data_append (a b : String) : (a ++ b).data = a.data ++ b.data := rfl

/-- The matcher's loop is a first-match search under `matcherCanon`. -/
theorem isUrlInSitemap_eq_find (u : String) (l : List SitemapEntry) :
    isUrlInSitemap u l = l.find? (fun item => matcherCanon item.loc == matcherCanon u) := rfl

/-! ## Claim C2 (corrected) -/

/-- Claim C2 counterexample: the canonical form the Membership Matcher
compares with and the canonical form under which the Session State
Tracker stores non-indexed URLs are NOT the same function: on
`https://example.com/page/` the matcher (which strips the trailing slash)
compares with `https://example.com/page`, while `addNonIndexedUrl` stores
the un-stripped `https://example.com/page/`. -/
theorem matcher_tracker_canon_differ :
    matcherCanon "https://example.com/page/" = "https://example.com/page" ∧
    removeUrlParameters "https://example.com/page/" = "https://example.com/page/" ∧
    matcherCanon "https://example.com/page/" ≠ removeUrlParameters "https://example.com/page/" := by
  refine ⟨by decide, by decide, by decide⟩

/-- Claim C2 (amended): the tracker canonicalizes with
`removeUrlParameters` alone while the matcher additionally strips one
trailing slash, so the two identities coincide exactly on URLs whose
parameter-stripped form does not end in a slash. -/
theorem matcher_tracker_agree_without_trailing_slash (u : String)
    (h : (removeUrlParameters u).data.getLast? ≠ some '/') :
    matcherCanon u = removeUrlParameters u := by
  unfold matcherCanon stripTrailingSlash
  rw [if_neg h]

/-- Witness for `matcher_tracker_agree_without_trailing_slash`. -/
theorem matcher_tracker_agree_witness :
    matcherCanon "https://example.com/page" = removeUrlParameters "https://example.com/page" :=
  matcher_tracker_agree_without_trailing_slash "https://example.com/page" (by decide)

/-! ## Claim C3 (corrected) -/

/-- Claim C3 counterexample: the canonicalization the code composes
(`removeUrlParameters` then `.replace(/\/$/, "")`, as the Matcher uses it)
strips the trailing slash from the root URL as well, whereas the claim
says the root URL keeps its slash. -/
theorem canonicalize_root_slash_counterexample :
    matcherCanon "https://example.com/" = "https://example.com" ∧
    canonicalizeSpecClaim "https://example.com/" = "https://example.com/" ∧
    matcherCanon "https://example.com/" ≠ canonicalizeSpecClaim "https://example.com/" := by
  refine ⟨by decide, by decide, by decide⟩

/-- Claim C3 (amended): `canonicalize` discards query parameters and
fragment, keeps scheme+host+path, strips one trailing slash
unconditionally — the root URL included — and on malformed input falls
back to splitting off `?` and `#` from the raw string (total, hence never
throwing): the code's composition refines the spec-worded function with
the root exception removed. -/
theorem canonicalize_refines_amended_spec (u : String) :
    matcherCanon u = canonicalizeAmended u := by
  unfold matcherCanon canonicalizeAmended removeUrlParameters
  cases parseURL u <;> rfl

/-! ## Claim C4 (confirmed) -/

/-- Claim C4: for every candidate URL and entry list, `isUrlInSitemap`
returns the first entry (in list order) whose canonicalized location
equals the canonicalized candidate — matching is exact equality on
canonical forms — and returns `none` exactly when no entry's canonical
form equals the candidate's; with duplicates the first encountered entry
is returned (every entry before the hit fails the comparison). -/
theorem findMatch_first (u : String) (l : List SitemapEntry) :
    (∀ e, isUrlInSitemap u l = some e →
      matcherCanon e.loc = matcherCanon u ∧
      ∃ l₁ l₂, l = l₁ ++ e :: l₂ ∧ ∀ x ∈ l₁, matcherCanon x.loc ≠ matcherCanon u) ∧
    (isUrlInSitemap u l = none ↔ ∀ e ∈ l, matcherCanon e.loc ≠ matcherCanon u) := by
  induction l with
  | nil => simp [isUrlInSitemap_eq_find]
  | cons x xs ih =>
    rw [isUrlInSitemap_eq_find] at ih ⊢
    by_cases hx : matcherCanon x.loc = matcherCanon u
    · rw [List.find?_cons_of_pos _ (by simpa using hx)]
      constructor
      · intro e he
        cases he
        refine ⟨hx, [], xs, rfl, by simp⟩
      · constructor
        · intro h
          cases h
        · intro h
          exact absurd hx (h x (List.mem_cons_self x xs))
    · rw [List.find?_cons_of_neg _ (by simpa using hx)]
      constructor
      · intro e he
        obtain ⟨hcanon, l₁, l₂, hsplit, hfirst⟩ := ih.1 e he
        refine ⟨hcanon, x :: l₁, l₂, by rw [hsplit]; rfl, ?_⟩
        intro y hy
        rcases List.mem_cons.mp hy with hy | hy
        · subst hy; exact hx
        · exact hfirst y hy
      · rw [ih.2]
        constructor
        · intro h e he
          rcases List.mem_cons.mp he with he | he
          · subst he; exact hx
          · exact h e he
        · intro h e he
          exact h e (List.mem_cons_of_mem x he)

/-- Witness for `findMatch_first`: with two entries sharing the
candidate's canonical form, the earlier one is the match. -/
theorem findMatch_first_witness :
    matcherCanon (SitemapEntry.mk "https://d.com/x/" "m1").loc = matcherCanon "https://d.com/x" ∧
    ∃ l₁ l₂,
      [SitemapEntry.mk "https://d.com/y" "", SitemapEntry.mk "https://d.com/x/" "m1",
        SitemapEntry.mk "https://d.com/x" "m2"] =
        l₁ ++ SitemapEntry.mk "https://d.com/x/" "m1" :: l₂ ∧
      ∀ x ∈ l₁, matcherCanon x.loc ≠ matcherCanon "https://d.com/x" :=
  (findMatch_first "https://d.com/x"
      [SitemapEntry.mk "https://d.com/y" "", SitemapEntry.mk "https://d.com/x/" "m1",
        SitemapEntry.mk "https://d.com/x" "m2"]).1
    (SitemapEntry.mk "https://d.com/x/" "m1") (by decide)

/-! ## Parser tier lemmas shared by C5 and C6 -/

/-- Every entry the tolerant tier keeps has a non-empty `loc`. -/
theorem regexTier_loc_ne_empty (t : String) : ∀ e ∈ regexTierEntries t, e.loc ≠ "" := by
  intro e he
  unfold regexTierEntries at he
  rw [List.mem_filterMap] at he
  obtain ⟨block, _, hf⟩ := he
  dsimp only at hf
  split at hf
  · exact absurd hf (by simp)
  · next h =>
    cases hf
    exact h

/-- Every entry the DOM extraction keeps has a non-empty `loc`. -/
theorem extractUrls_loc_ne_empty (doc : XmlNode) : ∀ e ∈ extractUrls doc, e.loc ≠ "" := by
  intro e he
  unfold extractUrls at he
  rw [List.mem_filterMap] at he
  obtain ⟨n, _, hf⟩ := he
  dsimp only at hf
  split at hf
  · split at hf
    · exact absurd hf (by simp)
    · next h =>
      cases hf
      exact h
  · exact absurd hf (by simp)

/-- Every entry the structured tier yields has a non-empty `loc`. -/
theorem domTier_loc_ne_empty (d : String → Option XmlNode) (t : String) :
    ∀ e ∈ domTierUrls d t, e.loc ≠ "" := by
  intro e he
  unfold domTierUrls at he
  split at he
  · exact absurd he (by simp)
  · split at he
    · exact absurd he (by simp)
    · exact extractUrls_loc_ne_empty _ e he

/-! ## Claim C5 (confirmed) -/

/-- Claim C5: the parser fails exactly when both tiers yield zero entries
(a structured tier yielding zero entries — a malformed document included —
falls through to the tolerant tier rather than failing); the only failure
message is the line-224 string (the Spanish rendering of "no valid URLs
found in sitemap"); and no success ever carries zero entries. -/
theorem parse_failure_iff_both_tiers_empty (d : String → Option XmlNode) (t : String) :
    (parseSitemapFromText d t =
        ParseResult.failure "No se encontraron URL válidas en el sitemap" ↔
      domTierUrls d t = [] ∧ regexTierEntries t = []) ∧
    (∀ msg, parseSitemapFromText d t = ParseResult.failure msg →
      msg = "No se encontraron URL válidas en el sitemap") ∧
    (∀ urls cnt lm, parseSitemapFromText d t = ParseResult.success urls cnt lm → urls ≠ []) := by
  unfold parseSitemapFromText
  cases hd : domTierUrls d t with
  | cons a as => simp [mkSuccess]
  | nil =>
    cases hr : regexTierEntries t with
    | nil => simp
    | cons b bs => simp [mkSuccess]

/-- Witness for `parse_failure_iff_both_tiers_empty`: with no `DOMParser`
and a text without `<url>` blocks, the parser fails with the line-224
message. -/
theorem parse_failure_witness :
    parseSitemapFromText (fun _ => none) "<html>no sitemap here</html>" =
      ParseResult.failure "No se encontraron URL válidas en el sitemap" :=
  (parse_failure_iff_both_tiers_empty (fun _ => none) "<html>no sitemap here</html>").1.mpr
    (by refine ⟨by decide, by decide⟩)

/-! ## Claim C6 (confirmed) -/

/-- Claim C6: whenever the parser succeeds, `count` equals the number of
entries, every kept entry has a non-empty `loc`, `lastModified` is the
first entry's `lastmod` (empty string when there is none), and the entry
list is exactly one tier's extraction — which both walk their source in
document order. -/
theorem parse_success_shape (d : String → Option XmlNode) (t : String)
    (urls : List SitemapEntry) (cnt : Nat) (lm : String)
    (h : parseSitemapFromText d t = ParseResult.success urls cnt lm) :
    cnt = urls.length ∧ (∀ e ∈ urls, e.loc ≠ "") ∧
    lm = (match urls with | [] => "" | e :: _ => e.lastmod) ∧
    (urls = domTierUrls d t ∨ urls = regexTierEntries t) := by
  unfold parseSitemapFromText at h
  cases hd : domTierUrls d t with
  | cons a as =>
    rw [hd] at h
    simp [mkSuccess] at h
    obtain ⟨h1, h2, h3⟩ := h
    subst h1; subst h2; subst h3
    exact ⟨rfl, by rw [← hd]; exact domTier_loc_ne_empty d t, rfl, Or.inl (by simp [hd])⟩
  | nil =>
    rw [hd] at h
    simp at h
    cases hr : regexTierEntries t with
    | nil => rw [hr] at h; simp [mkSuccess] at h
    | cons b bs =>
      rw [hr] at h
      simp [mkSuccess] at h
      obtain ⟨h1, h2, h3⟩ := h
      subst h1; subst h2; subst h3
      exact ⟨rfl, by rw [← hr]; exact regexTier_loc_ne_empty t, rfl, Or.inr (by simp [hr])⟩

/-- Witness for `parse_success_shape` on a two-entry sitemap handled by
the tolerant tier. -/
theorem parse_success_shape_witness :
    (1 + 1 : Nat) =
        [SitemapEntry.mk "https://a.com/p" "2024-01-01", SitemapEntry.mk "https://a.com/q" ""].length ∧
      (∀ e ∈ [SitemapEntry.mk "https://a.com/p" "2024-01-01", SitemapEntry.mk "https://a.com/q" ""],
        e.loc ≠ "") ∧
      "2024-01-01" =
        (match [SitemapEntry.mk "https://a.com/p" "2024-01-01", SitemapEntry.mk "https://a.com/q" ""] with
          | [] => "" | e :: _ => e.lastmod) ∧
      ([SitemapEntry.mk "https://a.com/p" "2024-01-01", SitemapEntry.mk "https://a.com/q" ""] =
          domTierUrls (fun _ => none)
            "<url><loc>https://a.com/p</loc><lastmod>2024-01-01</lastmod></url><url><loc>https://a.com/q</loc></url>" ∨
        [SitemapEntry.mk "https://a.com/p" "2024-01-01", SitemapEntry.mk "https://a.com/q" ""] =
          regexTierEntries
            "<url><loc>https://a.com/p</loc><lastmod>2024-01-01</lastmod></url><url><loc>https://a.com/q</loc></url>") :=
  parse_success_shape (fun _ => none)
    "<url><loc>https://a.com/p</loc><lastmod>2024-01-01</lastmod></url><url><loc>https://a.com/q</loc></url>"
    [SitemapEntry.mk "https://a.com/p" "2024-01-01", SitemapEntry.mk "https://a.com/q" ""]
    (1 + 1) "2024-01-01" (by decide)

/-! ## Fetcher lemmas shared by C7 -/

/-- The network path always counts as a network call. -/
theorem fetchNetworkStep_networkCalled (d : String → Option XmlNode)
    (cache : List (String × CacheRecord)) (now : Nat) (n : NetOutcome) (url : String) :
    (fetchNetworkStep d cache now n url).networkCalled = true := by
  unfold fetchNetworkStep
  cases n with
  | thrown msg => rfl
  | response ok status cl body =>
    dsimp only
    split_ifs <;> rfl

/-- A non-ok status, an oversized size header or an oversized body yields
a failure and leaves the cache unchanged. -/
theorem fetchNetworkStep_failure_keeps_cache (d : String → Option XmlNode)
    (cache : List (String × CacheRecord)) (now : Nat) (url : String)
    (ok : Bool) (status : Nat) (cl : Option Nat) (body : String)
    (hbad : ok = false ∨ contentLengthExceeds cl = true ∨ SIZE_READ_LIMIT < body.data.length) :
    (fetchNetworkStep d cache now (NetOutcome.response ok status cl body) url).result.isSuccess = false ∧
    (fetchNetworkStep d cache now (NetOutcome.response ok status cl body) url).cache = cache := by
  unfold fetchNetworkStep
  dsimp only
  split_ifs with h1 h2 h3
  · exact ⟨rfl, rfl⟩
  · exact ⟨rfl, rfl⟩
  · exact ⟨rfl, rfl⟩
  · rcases hbad with hb | hb | hb
    · exact absurd hb h1
    · exact absurd hb (by simpa using h2)
    · exact absurd hb h3

/-! ## Claim C7 (confirmed) -/

/-- Claim C7, cache discipline of `parseSitemap`: a cache record younger
than the TTL is parsed and returned with no network call and no cache
change; a successful network fetch (all guards passed) stores the raw
body keyed by the sitemap URL with the entry timestamp; a thrown fetch
surfaces its message and leaves the cache unchanged; a non-ok status or
size violation yields a failure and leaves the cache unchanged; and
whether the network is consulted does not depend on the network outcome,
so after a fetch-level failure (cache unchanged) a subsequent call
consults the network again. -/
theorem cache_discipline (d : String → Option XmlNode)
    (cache : List (String × CacheRecord)) (now : Nat) (net : NetOutcome) (url : String) :
    (∀ rec, cacheGet cache url = some rec → now - rec.fetchedAt < SITEMAP_CACHE_TTL_MS →
      parseSitemap d cache now net url =
        { result := parseSitemapFromText d rec.text, cache := cache,
          networkCalled := false, bodyRead := false }) ∧
    (∀ status cl body, net = NetOutcome.response true status cl body →
      contentLengthExceeds cl = false → body.data.length ≤ SIZE_READ_LIMIT →
      (parseSitemap d cache now net url).networkCalled = true →
      (parseSitemap d cache now net url).cache =
        cacheSet cache url { text := body, fetchedAt := now }) ∧
    (∀ msg, net = NetOutcome.thrown msg →
      (parseSitemap d cache now net url).networkCalled = true →
      (parseSitemap d cache now net url).result = ParseResult.failure msg ∧
      (parseSitemap d cache now net url).cache = cache) ∧
    (∀ ok status cl body, net = NetOutcome.response ok status cl body →
      (ok = false ∨ contentLengthExceeds cl = true ∨ SIZE_READ_LIMIT < body.data.length) →
      (parseSitemap d cache now net url).networkCalled = true →
      (parseSitemap d cache now net url).result.isSuccess = false ∧
      (parseSitemap d cache now net url).cache = cache) ∧
    ((parseSitemap d cache now net url).networkCalled = true →
      ∀ net2, (parseSitemap d cache now net2 url).networkCalled = true) := by
  have hmode :
      (∀ n : NetOutcome, parseSitemap d cache now n url = fetchNetworkStep d cache now n url) ∨
      (∀ n : NetOutcome, (parseSitemap d cache now n url).networkCalled = false) := by
    unfold parseSitemap
    cases cacheGet cache url with
    | none => exact Or.inl (fun _ => rfl)
    | some rec =>
      dsimp only
      by_cases hfresh : now - rec.fetchedAt < SITEMAP_CACHE_TTL_MS
      · refine Or.inr (fun n => ?_)
        rw [if_pos hfresh]
      · refine Or.inl (fun n => ?_)
        rw [if_neg hfresh]
  refine ⟨?_, ?_, ?_, ?_, ?_⟩
  · intro rec hrec hfresh
    unfold parseSitemap
    rw [hrec]
    dsimp only
    rw [if_pos hfresh]
  · intro status cl body hnet h1 h2 hcalled
    subst hnet
    rcases hmode with ha | hb
    · rw [ha]
      unfold fetchNetworkStep
      dsimp only
      rw [if_neg (by simp), if_neg (by simp [h1]), if_neg (Nat.not_lt.mpr h2)]
    · rw [hb] at hcalled
      cases hcalled
  · intro msg hnet hcalled
    subst hnet
    rcases hmode with ha | hb
    · rw [ha]
      exact ⟨rfl, rfl⟩
    · rw [hb] at hcalled
      cases hcalled
  · intro ok status cl body hnet hbad hcalled
    subst hnet
    rcases hmode with ha | hb
    · rw [ha]
      exact fetchNetworkStep_failure_keeps_cache d cache now url ok status cl body hbad
    · rw [hb] at hcalled
      cases hcalled
  · intro hcalled net2
    rcases hmode with ha | hb
    · rw [ha]
      exact fetchNetworkStep_networkCalled d cache now net2 url
    · rw [hb] at hcalled
      cases hcalled

/-- Witness for `cache_discipline`: a fresh cache record is served with no
network call even though the network would fail. -/
theorem cache_discipline_witness :
    parseSitemap (fun _ => none)
        [("https://s.com/sitemap.xml", CacheRecord.mk "<url><loc>https://s.com/a</loc></url>" 1000)]
        2000 (NetOutcome.thrown "network down") "https://s.com/sitemap.xml" =
      { result := parseSitemapFromText (fun _ => none) "<url><loc>https://s.com/a</loc></url>",
        cache :=
          [("https://s.com/sitemap.xml", CacheRecord.mk "<url><loc>https://s.com/a</loc></url>" 1000)],
        networkCalled := false, bodyRead := false } :=
  (cache_discipline (fun _ => none)
      [("https://s.com/sitemap.xml", CacheRecord.mk "<url><loc>https://s.com/a</loc></url>" 1000)]
      2000 (NetOutcome.thrown "network down") "https://s.com/sitemap.xml").1
    (CacheRecord.mk "<url><loc>https://s.com/a</loc></url>" 1000) (by decide) (by decide)

/-! ## Claim C8 (confirmed) -/

/-- Claim C8, size guard of `parseSitemap` (on a cache miss, so the
network path runs): a size header reporting more than the 5 MB ceiling
fails with the "too large" message before the body is read
(`bodyRead = false`), and a body longer than 1.2 times the ceiling
(6291456) fails with the size message after reading; in both cases the
result is the failure (nothing is parsed) and the cache is unchanged. -/
theorem size_guard (d : String → Option XmlNode) (cache : List (String × CacheRecord))
    (now : Nat) (url : String) (status : Nat) (cl : Option Nat) (body : String)
    (hmiss : ∀ rec, cacheGet cache url = some rec → SITEMAP_CACHE_TTL_MS ≤ now - rec.fetchedAt) :
    (∀ n, cl = some n → MAX_SITEMAP_BYTES < n →
      parseSitemap d cache now (NetOutcome.response true status cl body) url =
        { result := ParseResult.failure "Sitemap demasiado grande (límite 5MB)",
          cache := cache, networkCalled := true, bodyRead := false }) ∧
    (contentLengthExceeds cl = false → SIZE_READ_LIMIT < body.data.length →
      parseSitemap d cache now (NetOutcome.response true status cl body) url =
        { result := ParseResult.failure "Sitemap excede el tamaño permitido",
          cache := cache, networkCalled := true, bodyRead := true }) := by
  have hnet : parseSitemap d cache now (NetOutcome.response true status cl body) url =
      fetchNetworkStep d cache now (NetOutcome.response true status cl body) url := by
    unfold parseSitemap
    cases hget : cacheGet cache url with
    | none => rfl
    | some rec =>
      dsimp only
      rw [if_neg (Nat.not_lt.mpr (hmiss rec hget))]
  constructor
  · intro n hcl hn
    subst hcl
    rw [hnet]
    unfold fetchNetworkStep
    dsimp only
    rw [if_neg (by simp), if_pos (by simp [contentLengthExceeds, hn])]
  · intro h1 h2
    rw [hnet]
    unfold fetchNetworkStep
    dsimp only
    rw [if_neg (by simp), if_neg (by simp [h1]), if_pos h2]

/-- Witness for `size_guard`: a 6000000-byte `content-length` header (over
the 5242880-byte ceiling) fails fast without reading the body. -/
theorem size_guard_witness :
    parseSitemap (fun _ => none) [] 0 (NetOutcome.response true 200 (some 6000000) "x")
        "https://s.com/sitemap.xml" =
      { result := ParseResult.failure "Sitemap demasiado grande (límite 5MB)",
        cache := [], networkCalled := true, bodyRead := false } :=
  (size_guard (fun _ => none) [] 0 "https://s.com/sitemap.xml" 200 (some 6000000) "x"
      (fun _ h => Option.noConfusion h)).1 6000000 rfl (by decide)

/-! ## Claim C9 (confirmed) -/

/-- Claim C9: when the direct fetch fails and the page-context fallback
also fails, returns no result, returns no text, or is not attempted
(falsy tab id), the orchestrator's error carries exactly the wrapped
original direct-fetch message — the fallback's own error is nowhere in
the outcome; only a successful fallback carrying non-empty text changes
the outcome, and it does so by re-parsing that text. -/
theorem fallback_error_preservation (d : String → Option XmlNode) (host su e tabUrl : String)
    (pf : Option PageFetchResult) (tabId : Option Nat) :
    ((pf = none ∨ truthyTab tabId = false ∨
        ∃ r, pf = some r ∧ (r.success = false ∨ r.text = "")) →
      processSitemapRequest d (Except.ok host) (some su) (ParseResult.failure e) pf tabUrl tabId =
        CheckResponse.error ("Error al leer el sitemap: " ++ e)) ∧
    (∀ r, pf = some r → r.success = true → r.text ≠ "" → truthyTab tabId = true →
      processSitemapRequest d (Except.ok host) (some su) (ParseResult.failure e) pf tabUrl tabId =
        finishRequest tabUrl su (parseSitemapFromText d r.text)) := by
  unfold processSitemapRequest
  dsimp only
  constructor
  · intro hcase
    by_cases htab : truthyTab tabId = true
    · rw [if_pos ⟨rfl, htab⟩]
      rcases hcase with hnone | htab' | ⟨r, hr, hbad⟩
      · subst hnone
        rfl
      · rw [htab] at htab'
        cases htab'
      · subst hr
        dsimp only
        rw [if_neg]
        · rfl
        · rintro ⟨hs, ht⟩
          rcases hbad with hb | hb
          · rw [hs] at hb
            cases hb
          · exact ht hb
    · rw [if_neg (fun h => htab h.2)]
      rfl
  · intro r hr hs ht htab
    subst hr
    rw [if_pos ⟨rfl, htab⟩]
    dsimp only
    rw [if_pos ⟨hs, ht⟩]

/-- Witness for `fallback_error_preservation`: a failed fallback carrying
its own error message leaves the direct-fetch error as the surfaced one. -/
theorem fallback_error_preservation_witness :
    processSitemapRequest (fun _ => none) (Except.ok "example.com")
        (some "https://example.com/sitemap.xml") (ParseResult.failure "HTTP 403")
        (some (PageFetchResult.mk false "" "page fetch exploded"))
        "https://example.com/page" (some 5) =
      CheckResponse.error ("Error al leer el sitemap: " ++ "HTTP 403") :=
  (fallback_error_preservation (fun _ => none) "example.com" "https://example.com/sitemap.xml"
      "HTTP 403" "https://example.com/page" (some (PageFetchResult.mk false "" "page fetch exploded"))
      (some 5)).1
    (Or.inr (Or.inr ⟨PageFetchResult.mk false "" "page fetch exploded", rfl, Or.inl rfl⟩))

/-! ## Claim C10 (confirmed) -/

/-- The raw URL string sits verbatim between the `<loc>` tags of its
export block. -/
theorem exportEntryBlock_contains_loc (ts u : String) :
    List.IsInfix ("<loc>" ++ u ++ "</loc>").data (exportEntryBlock ts u).data := by
  refine ⟨"    <url>\n      ".data,
    "\n      <lastmod>".data ++ ts.data ++ "</lastmod>\n    </url>".data, ?_⟩
  have hs : "    <url>\n      ".data ++ "<loc>".data = "    <url>\n      <loc>".data := by decide
  have hl : "</loc>".data ++ "\n      <lastmod>".data = "</loc>\n      <lastmod>".data := by decide
  show "    <url>\n      ".data ++ ("<loc>".data ++ u.data ++ "</loc>".data) ++
      ("\n      <lastmod>".data ++ ts.data ++ "</lastmod>\n    </url>".data) =
    "    <url>\n      <loc>".data ++ u.data ++ "</loc>\n      <lastmod>".data ++ ts.data ++
      "</lastmod>\n    </url>".data
  rw [← hs, ← hl]
  simp [List.append_assoc]

/-- Every element of a joined list is a contiguous substring of the join. -/
theorem mem_joinLines_sub (x : String) (l : List String) (hx : x ∈ l) :
    List.IsInfix x.data (joinLines l).data := by
  induction l with
  | nil => cases hx
  | cons s rest ih =>
    cases rest with
    | nil =>
      rcases List.mem_cons.mp hx with h | h
      · subst h
        exact List.infix_refl _
      · cases h
    | cons s2 rest2 =>
      have hjoin : joinLines (s :: s2 :: rest2) = s ++ "\n" ++ joinLines (s2 :: rest2) := rfl
      rcases List.mem_cons.mp hx with h | h
      · subst h
        refine ⟨[], ("\n" ++ joinLines (s2 :: rest2)).data, ?_⟩
        rw [hjoin]
        show x.data ++ ("\n".data ++ (joinLines (s2 :: rest2)).data) =
          (x ++ "\n").data ++ (joinLines (s2 :: rest2)).data
        simp [str_data_append, List.append_assoc]
      · obtain ⟨p, q, hp⟩ := ih h
        refine ⟨(s ++ "\n").data ++ p, q, ?_⟩
        rw [hjoin]
        show ((s.data ++ "\n".data) ++ p) ++ x.data ++ q =
          (s.data ++ "\n".data) ++ (joinLines (s2 :: rest2)).data
        rw [← hp]
        simp [List.append_assoc]

/-- Claim C10: the export inserts each stored non-indexed URL verbatim
into its `<loc>` element — for every stored URL the exported fragment
contains the raw character sequence `<loc>` ++ url ++ `</loc>` with no
XML escaping (so a stored `&` or `<` appears unescaped and the fragment
is not guaranteed to be well-formed XML). -/
theorem export_inserts_urls_verbatim (st : Nat → List String) (tabId : Nat) (ts : String)
    (u : String) (hu : u ∈ st tabId) :
    List.IsInfix ("<loc>" ++ u ++ "</loc>").data (exportNonIndexedUrls st tabId ts).data := by
  unfold exportNonIndexedUrls
  dsimp only
  rw [if_neg (by intro h; rw [h] at hu; cases hu)]
  exact (exportEntryBlock_contains_loc ts u).trans
    (mem_joinLines_sub (exportEntryBlock ts u) ((st tabId).map (exportEntryBlock ts))
      (List.mem_map_of_mem _ hu))

/-- Witness for `export_inserts_urls_verbatim`: a stored URL containing a
raw `&` and `<` appears unescaped in the exported fragment. -/
theorem export_inserts_urls_verbatim_witness :
    List.IsInfix ("<loc>" ++ "https://e.com/a&b<c" ++ "</loc>").data
      (exportNonIndexedUrls (fun t => if t = 7 then ["https://e.com/a&b<c"] else []) 7
        "2025-05-13T22:21:07+00:00").data :=
  export_inserts_urls_verbatim (fun t => if t = 7 then ["https://e.com/a&b<c"] else []) 7
    "2025-05-13T22:21:07+00:00" "https://e.com/a&b<c" (by decide)

/-! ## Session State Tracker lemmas shared by C1 -/

/-- Membership in a `Set.add`. -/
theorem mem_setAdd (s : List String) (x y : String) : y ∈ setAdd s x ↔ y ∈ s ∨ y = x := by
  unfold setAdd
  split_ifs with h
  · constructor
    · exact Or.inl
    · rintro (hy | rfl)
      · exact hy
      · exact h
  · simp [List.mem_append]

/-- Applying one more event is one more `updateBadgeFromResult`. -/
theorem applyEvents_append (evs : List (BgResult × Nat)) (e : BgResult × Nat)
    (st : Nat → List String) :
    applyEvents (evs ++ [e]) st = updateBadgeFromResult e.1 e.2 (applyEvents evs st) := by
  unfold applyEvents
  rw [List.foldl_append]
  rfl

/-- The most recent verdict after one more event: the new event's verdict
if it is a matching successful check, else the previous one. -/
theorem lastVerdictAt_append (canon : String → String) (t : Nat) (c : String)
    (evs : List (BgResult × Nat)) (e : BgResult × Nat) :
    lastVerdictAt canon t c (evs ++ [e]) =
      if (isSuccessCheck e t && (canon e.1.currentUrl == c)) = true then e.1.urlFound
      else lastVerdictAt canon t c evs := by
  unfold lastVerdictAt
  rw [List.reverse_append, List.reverse_singleton, List.singleton_append]
  by_cases hp : (isSuccessCheck e t && (canon e.1.currentUrl == c)) = true
  · have hpos : List.find? (fun x => isSuccessCheck x t && (canon x.1.currentUrl == c))
        (e :: evs.reverse) = some e := List.find?_cons_of_pos _ hp
    rw [hpos, if_pos hp]
  · have hneg : List.find? (fun x => isSuccessCheck x t && (canon x.1.currentUrl == c))
        (e :: evs.reverse) =
        List.find? (fun x => isSuccessCheck x t && (canon x.1.currentUrl == c)) evs.reverse :=
      List.find?_cons_of_neg _ hp
    rw [hneg, if_neg hp]

/-- An add for another tab does not change this tab's set. -/
theorem addNonIndexedUrl_other (tid : Nat) (url : String) (st : Nat → List String)
    (t : Nat) (h : t ≠ tid) : addNonIndexedUrl tid url st t = st t := by
  unfold addNonIndexedUrl
  split_ifs with hg
  · rfl
  · exact if_neg h

/-- A removal for another tab does not change this tab's set. -/
theorem removeNonIndexedUrl_other (tid : Nat) (url : String) (st : Nat → List String)
    (t : Nat) (h : t ≠ tid) : removeNonIndexedUrl tid url st t = st t := by
  unfold removeNonIndexedUrl
  by_cases hg : tid = 0
  · rw [if_pos hg]
  · rw [if_neg hg]
    exact if_neg h

/-- No add ever touches the (falsy) tab identifier zero. -/
theorem addNonIndexedUrl_zero (tid : Nat) (url : String) (st : Nat → List String) :
    addNonIndexedUrl tid url st 0 = st 0 := by
  by_cases h0 : tid = 0
  · subst h0
    simp [addNonIndexedUrl]
  · exact addNonIndexedUrl_other tid url st 0 (fun h => h0 h.symm)

/-- No removal ever touches the (falsy) tab identifier zero. -/
theorem removeNonIndexedUrl_zero (tid : Nat) (url : String) (st : Nat → List String) :
    removeNonIndexedUrl tid url st 0 = st 0 := by
  by_cases h0 : tid = 0
  · subst h0
    simp [removeNonIndexedUrl]
  · exact removeNonIndexedUrl_other tid url st 0 (fun h => h0 h.symm)

/-- `updateBadgeFromResult` never touches tab zero's set. -/
theorem updateBadge_keeps_zero (r : BgResult) (tid : Nat) (st : Nat → List String) :
    (updateBadgeFromResult r tid st) 0 = st 0 := by
  unfold updateBadgeFromResult
  split_ifs with h1 h2
  · exact addNonIndexedUrl_zero tid r.currentUrl st
  · exact removeNonIndexedUrl_zero tid r.currentUrl st
  · rfl

/-- Tab zero's set never changes under any event sequence. -/
theorem applyEvents_zero (evs : List (BgResult × Nat)) (st : Nat → List String) :
    applyEvents evs st 0 = st 0 := by
  induction evs generalizing st with
  | nil => rfl
  | cons e evs ih =>
    show applyEvents evs (updateBadgeFromResult e.1 e.2 st) 0 = st 0
    rw [ih, updateBadge_keeps_zero]

/-- An event that is not a successful check for `(t, c)` (under the
tracker's canonicalization) cannot introduce `c` into tab `t`'s set. -/
theorem update_preserves_not_mem (e : BgResult × Nat) (t : Nat) (c : String)
    (S : Nat → List String) (hc : c ∉ S t)
    (hp : (isSuccessCheck e t && (removeUrlParameters e.1.currentUrl == c)) = false) :
    c ∉ (updateBadgeFromResult e.1 e.2 S) t := by
  unfold updateBadgeFromResult
  split_ifs with h1 h2
  · unfold addNonIndexedUrl
    by_cases hg : e.2 = 0 ∨ e.1.currentUrl = ""
    · rw [if_pos hg]
      exact hc
    · rw [if_neg hg]
      show c ∉ (if t = e.2 then setAdd (S e.2) (removeUrlParameters e.1.currentUrl) else S t)
      by_cases ht : t = e.2
      · rw [if_pos ht]
        subst ht
        intro hmem
        rcases (mem_setAdd _ _ _).mp hmem with hin | hceq
        · exact hc hin
        · exact absurd hp (by simp [isSuccessCheck, h1.1, h1.2.1, h1.2.2, hceq])
      · rw [if_neg ht]
        exact hc
  · unfold removeNonIndexedUrl
    by_cases hg : e.2 = 0
    · rw [if_pos hg]
      exact hc
    · rw [if_neg hg]
      show c ∉ (if t = e.2 then
          (if e.1.currentUrl = "" then S e.2
            else (S e.2).filter (fun x => x ≠ removeUrlParameters e.1.currentUrl))
          else S t)
      by_cases ht : t = e.2
      · rw [if_pos ht]
        subst ht
        by_cases hu : e.1.currentUrl = ""
        · rw [if_pos hu]
          exact hc
        · rw [if_neg hu]
          intro hmem
          exact hc (List.mem_filter.mp hmem).1
      · rw [if_neg ht]
        exact hc
  · exact hc

/-- The invariant over any initial state, for a truthy tab identifier. -/
theorem inv_aux (t : Nat) (ht : t ≠ 0) (c : String) (st : Nat → List String)
    (evs : List (BgResult × Nat)) :
    (∀ e ∈ evs, e.1.hasError = false → e.1.status = "success" → e.1.currentUrl ≠ "") →
    lastVerdictAt removeUrlParameters t c evs = some true →
    c ∉ applyEvents evs st t := by
  induction evs using List.reverseRecOn with
  | nil =>
    intro _ hv
    simp [lastVerdictAt] at hv
  | append_singleton evs e ih =>
    intro hurl hv
    rw [applyEvents_append]
    rw [lastVerdictAt_append] at hv
    by_cases hp : (isSuccessCheck e t && (removeUrlParameters e.1.currentUrl == c)) = true
    · rw [if_pos hp] at hv
      have hcomp := hp
      simp only [isSuccessCheck, Bool.and_eq_true, beq_iff_eq, Bool.or_eq_true] at hcomp
      obtain ⟨⟨⟨⟨h2t, herr⟩, hst⟩, _⟩, hcanon⟩ := hcomp
      have hne : e.1.currentUrl ≠ "" :=
        hurl e (List.mem_append_right _ (List.mem_singleton.mpr rfl)) herr hst
      unfold updateBadgeFromResult
      rw [if_neg (by rintro ⟨_, _, huf⟩; rw [hv] at huf; exact absurd huf (by simp)),
        if_pos ⟨herr, hst, hv⟩]
      unfold removeNonIndexedUrl
      rw [if_neg (fun h => ht (h2t.symm.trans h))]
      show c ∉ (if t = e.2 then
          (if e.1.currentUrl = "" then applyEvents evs st e.2
            else (applyEvents evs st e.2).filter
              (fun x => x ≠ removeUrlParameters e.1.currentUrl))
          else applyEvents evs st t)
      rw [if_pos h2t.symm, if_neg hne]
      intro hmem
      exact (of_decide_eq_true (List.mem_filter.mp hmem).2) hcanon.symm
    · rw [if_neg hp] at hv
      exact update_preserves_not_mem e t c _
        (ih (fun e' he' => hurl e' (List.mem_append_left _ he')) hv)
        (Bool.not_eq_true _ ▸ Bool.of_not_eq_true hp)

/-! ## Claim C1 (corrected) -/

/-- Claim C1 counterexample (canonical form as the spec defines it, i.e.
with the trailing slash stripped as the Matcher does): after a
not-found check of `https://example.com/page/` and then a found check of
`https://example.com/page` on the same tab — two URLs with the same
canonical form — the set still contains `https://example.com/page/`, a
URL whose most recent check result for its canonical form was "found in
sitemap": the remove used the un-stripped form and missed. -/
theorem tracker_invariant_counterexample :
    lastVerdictAt matcherCanon 1 (matcherCanon "https://example.com/page/")
        [(BgResult.mk "success" false (some false) "https://example.com/page/", 1),
          (BgResult.mk "success" false (some true) "https://example.com/page", 1)] = some true ∧
    applyEvents
        [(BgResult.mk "success" false (some false) "https://example.com/page/", 1),
          (BgResult.mk "success" false (some true) "https://example.com/page", 1)]
        (fun _ => []) 1 = ["https://example.com/page/"] ∧
    matcherCanon "https://example.com/page/" = matcherCanon "https://example.com/page" := by
  refine ⟨by decide, by decide, by decide⟩

/-- Claim C1 (amended): the invariant holds for the tracker's own
canonicalization (query/fragment stripping only, no trailing-slash
removal): starting from the empty state, after any sequence of check
results (each successful check carrying a non-empty current URL, as
`processSitemapRequest` guarantees) is applied, a tab's non-indexed set
never contains a canonical form whose most recent successful check for
that same canonical form found the URL in the sitemap. -/
theorem nonindexed_invariant (evs : List (BgResult × Nat)) (t : Nat) (c : String)
    (hurl : ∀ e ∈ evs, e.1.hasError = false → e.1.status = "success" → e.1.currentUrl ≠ "")
    (hv : lastVerdictAt removeUrlParameters t c evs = some true) :
    c ∉ applyEvents evs (fun _ => []) t := by
  by_cases ht : t = 0
  · subst ht
    rw [applyEvents_zero]
    exact List.not_mem_nil c
  · exact inv_aux t ht c (fun _ => []) evs hurl hv

/-- Witness for `nonindexed_invariant`: checked absent then present with
the identical URL, the URL is no longer tracked as non-indexed. -/
theorem nonindexed_invariant_witness :
    "https://w.com/a" ∉ applyEvents
        [(BgResult.mk "success" false (some false) "https://w.com/a", 2),
          (BgResult.mk "success" false (some true) "https://w.com/a", 2)] (fun _ => []) 2 :=
  nonindexed_invariant
    [(BgResult.mk "success" false (some false) "https://w.com/a", 2),
      (BgResult.mk "success" false (some true) "https://w.com/a", 2)] 2 "https://w.com/a"
    (by decide) (by decide)
